import Mathlib

/-!
Shallow embedding of the birth-chart orchestration pipeline
(`planetary_calculator/`): the request validator, the location resolver,
the position formatter, the Vedic calculation engine and the top-level
orchestration function.  Python floats are modelled as rationals, Python
exceptions as an explicit error sum carried in `Except`, and the external
collaborators (Swiss Ephemeris, the Nominatim geocoder, interactive input)
as oracle parameters.  Provider interactions are additionally recorded in
explicit traces so that claims about "no ephemeris work" and "at most
three geocoding queries" are statable.
-/

set_option autoImplicit false
set_option maxRecDepth 4096

/-- Python `x % y` on floats: `x - y * floor (x / y)` (sign of the divisor). -/
def pymod (x y : ℚ) : ℚ := x - y * ⌊x / y⌋

/-- Python `x // y` on floats: floor division, returning a float. -/
def pyfloordiv (x y : ℚ) : ℚ := (⌊x / y⌋ : ℤ)

/-- Python `int(f)` on a float: truncation toward zero. -/
def pytrunc (q : ℚ) : ℤ := if 0 ≤ q then ⌊q⌋ else -⌊-q⌋

/-- The decimal digit character for `d` (used for `d ≤ 9`). -/
def digitChar (d : Nat) : Char :=
  if d = 0 then '0' else if d = 1 then '1' else if d = 2 then '2'
  else if d = 3 then '3' else if d = 4 then '4' else if d = 5 then '5'
  else if d = 6 then '6' else if d = 7 then '7' else if d = 8 then '8' else '9'

/-- Decimal digit list of a natural number; `fuel` bounds the recursion depth
(`n + 1` is always enough). -/
def natDigitCharsAux : Nat → Nat → List Char
  | 0, _ => []
  | fuel + 1, n =>
    if n < 10 then [digitChar n]
    else natDigitCharsAux fuel (n / 10) ++ [digitChar (n % 10)]

/-- Decimal digit characters of a natural number, most significant first. -/
def natDigitChars (n : Nat) : List Char := natDigitCharsAux (n + 1) n

/-- Python `str(n)` for an integer `n`. -/
def pyStr (n : ℤ) : String :=
  if n < 0 then "-" ++ String.mk (natDigitChars n.natAbs)
  else String.mk (natDigitChars n.natAbs)

/-- Numeric value of a list of decimal digit characters. -/
def digitsToNat (cs : List Char) : Nat :=
  cs.foldl (fun a c => a * 10 + (c.toNat - 48)) 0

/-- Does `l` start with `pat`? -/
def listStartsWith : List Char → List Char → Bool
  | [], _ => true
  | _ :: _, [] => false
  | p :: ps, c :: cs => p == c && listStartsWith ps cs

/-- Does `l` contain `pat` as a contiguous run? -/
def listContainsSub (pat : List Char) : List Char → Bool
  | [] => pat.isEmpty
  | c :: cs => listStartsWith pat (c :: cs) || listContainsSub pat cs

/-- Python `pat in s` for strings: contiguous substring test. -/
def strContains (s pat : String) : Bool := listContainsSub pat.data s.data

/-- Python `int(s)`: strip whitespace, optional sign, decimal digits.
(Underscore separators and non-ASCII digits are outside the model.) -/
def pyParseIntCore (cs : List Char) : Option ℤ :=
  if cs ≠ [] ∧ cs.all Char.isDigit then some (digitsToNat cs : ℤ) else none

/-- Python `str.strip()`: drop leading and trailing whitespace. -/
def pyStrip (s : String) : String :=
  String.mk (((s.data.dropWhile Char.isWhitespace).reverse.dropWhile Char.isWhitespace).reverse)

/-- Python `int(s)` on a raw string, returning `none` on a parse failure. -/
def pyParseInt (s : String) : Option ℤ :=
  match (pyStrip s).data with
  | '+' :: rest => pyParseIntCore rest
  | '-' :: rest => (pyParseIntCore rest).map Neg.neg
  | cs => pyParseIntCore cs

/-- Python `float(s)` body: digits with an optional single decimal point.
(Exponent notation and `inf`/`nan` are outside the model; in the resolver
they would be rejected by the range check just as a parse failure is.) -/
def pyParseFloatCore (cs : List Char) : Option ℚ :=
  let intp := cs.takeWhile (fun c => c ≠ '.')
  match cs.dropWhile (fun c => c ≠ '.') with
  | [] => if cs ≠ [] ∧ cs.all Char.isDigit then some ((digitsToNat cs : ℤ) : ℚ) else none
  | _ :: fracp =>
    if (intp ++ fracp) ≠ [] ∧ intp.all Char.isDigit ∧ fracp.all Char.isDigit then
      some ((digitsToNat intp : ℚ) + (digitsToNat fracp : ℚ) / ((10 : ℚ) ^ fracp.length))
    else none

/-- Python `float(s)` on a raw string, returning `none` on a parse failure. -/
def pyParseFloat (s : String) : Option ℚ :=
  match (pyStrip s).data with
  | '+' :: rest => pyParseFloatCore rest
  | '-' :: rest => (pyParseFloatCore rest).map Neg.neg
  | cs => pyParseFloatCore cs

/-- Rounding to the nearest integer, ties to even (Python float formatting). -/
def halfEvenRound (q : ℚ) : ℤ :=
  let f : ℤ := ⌊q⌋
  let r : ℚ := q - (f : ℚ)
  if r < 1/2 then f
  else if 1/2 < r then f + 1
  else if f % 2 = 0 then f else f + 1

/-- Zero-pad the decimal rendering of `n` to width `w`. -/
def padZeros (w : Nat) (n : Nat) : String :=
  let s := String.mk (natDigitChars n)
  if s.length < w then String.mk (List.replicate (w - s.length) '0') ++ s else s

/-- Python `f"{q:05.0f}"`. -/
def fmt05f (q : ℚ) : String :=
  let n := halfEvenRound q
  if n < 0 then "-" ++ padZeros 4 n.natAbs else padZeros 5 n.natAbs

/-- Python `f"{n:02d}"`. -/
def fmt02d (n : ℤ) : String :=
  if n < 0 then "-" ++ padZeros 1 n.natAbs else padZeros 2 n.natAbs

/-- Python `f"{s:9}"`: left-align, pad with spaces to width 9. -/
def padTo9 (s : String) : String :=
  if s.length < 9 then s ++ String.mk (List.replicate (9 - s.length) ' ') else s

/-- Python `f"{q:.4f}"`. -/
def fmtFixed4 (q : ℚ) : String :=
  let n := halfEvenRound (q * 10000)
  let sign := if q < 0 then "-" else ""
  let a := n.natAbs
  sign ++ String.mk (natDigitChars (a / 10000)) ++ "." ++ padZeros 4 (a % 10000)

/-- Python exceptions relevant to the pipeline: `ValueError` versus every
other `Exception` (the Swiss Ephemeris error type is not a `ValueError`). -/
inductive PyError where
  | valueError (msg : String)
  | otherError (msg : String)
  deriving DecidableEq

/-- Python `str(e)` of an exception. -/
def PyError.msg : PyError → String
  | .valueError m => m
  | .otherError m => m

/-! ### PositionFormatter (`formatting_utils.py`) -/

namespace PositionFormatter

/-- The fixed ordered zodiac table (`VedicCalculatorEngine.ZODIAC_SIGNS`),
passed to the formatter at construction. -/
def ZODIAC_SIGNS : List String :=
  ["Aries", "Taurus", "Gemini", "Cancer", "Leo", "Virgo",
   "Libra", "Scorpio", "Sagittarius", "Capricorn", "Aquarius", "Pisces"]

/-- Source: `sign_index = int(longitude_degrees // 30)`. -/
def sign_index (longitude_degrees : ℚ) : ℤ := pytrunc (pyfloordiv longitude_degrees 30)

/-- Source: `degrees_in_sign = longitude_degrees % 30`. -/
def degrees_in_sign (longitude_degrees : ℚ) : ℚ := pymod longitude_degrees 30

/-- Source: `degrees = int(degrees_in_sign)`. -/
def degrees (longitude_degrees : ℚ) : ℤ := pytrunc (degrees_in_sign longitude_degrees)

/-- Source: `minutes = int((degrees_in_sign - degrees) * 60)`. -/
def minutes (longitude_degrees : ℚ) : ℤ :=
  pytrunc ((degrees_in_sign longitude_degrees - (degrees longitude_degrees : ℚ)) * 60)

/-- Method `format_position`: one formatted position line.  The zodiac lookup is
total here (`getD`); the callers always pass a longitude normalized by
`% 360`, for which the index is proved in bounds below. -/
def format_position (celestial_body_name : String) (longitude_degrees : ℚ) : String :=
  let zodiac_sign := ZODIAC_SIGNS.getD (sign_index longitude_degrees).toNat ""
  padTo9 celestial_body_name ++ ": " ++ fmt05f longitude_degrees ++ "° " ++
    fmt02d (minutes longitude_degrees) ++ "\x27 → " ++
    fmt02d (degrees longitude_degrees) ++ "° " ++
    fmt02d (minutes longitude_degrees) ++ "\x27 " ++ zodiac_sign

end PositionFormatter

/-! ### EphemerisProvider interface and call traces -/

/-- The Swiss Ephemeris operations the engine calls, as an oracle.
`swe_calc jd planet_id` returns the (sidereal) ecliptic longitude
`data[0][0]`, or raises (`.error`, a non-`ValueError` exception);
`swe_houses_ex jd lat lon` returns the ascendant `ascmc[0]` or raises;
`swe_julday y m d hfrac` is total (it never raises on numeric input). -/
structure Ephemeris where
  swe_calc : ℚ → Nat → Except String ℚ
  swe_houses_ex : ℚ → ℚ → ℚ → Except String ℚ
  swe_julday : ℤ → ℤ → ℤ → ℚ → ℚ

/-- One recorded call to the ephemeris provider. -/
inductive EphCall where
  | body (planet_id : Nat)
  | ascendant
  deriving DecidableEq

/-! ### Python `datetime` construction and `timedelta` subtraction -/

/-- The fields of a Python `datetime` (seconds and microseconds are always
zero in this pipeline). -/
structure PyDatetime where
  year : ℤ
  month : ℤ
  day : ℤ
  hour : ℤ
  minute : ℤ
  deriving DecidableEq

/-- Python leap-year rule. -/
def is_leap (y : ℤ) : Bool := y % 4 = 0 ∧ (y % 100 ≠ 0 ∨ y % 400 = 0)

/-- Days in a month (valid for `1 ≤ m ≤ 12`). -/
def days_in_month (y m : ℤ) : ℤ :=
  if m = 2 then (if is_leap y then 29 else 28)
  else if m = 4 ∨ m = 6 ∨ m = 9 ∨ m = 11 then 30
  else 31

/-- Python `datetime(year, month, day, hour, minute)`: the constructor's
validation, raising `ValueError` with Python's messages. -/
def mkDatetime (year month day hour minute : ℤ) : Except PyError PyDatetime :=
  if year < 1 ∨ 9999 < year then
    .error (.valueError ("year " ++ pyStr year ++ " is out of range"))
  else if month < 1 ∨ 12 < month then
    .error (.valueError "month must be in 1..12")
  else if day < 1 ∨ days_in_month year month < day then
    .error (.valueError "day is out of range for month")
  else if hour < 0 ∨ 23 < hour then
    .error (.valueError "hour must be in 0..23")
  else if minute < 0 ∨ 59 < minute then
    .error (.valueError "minute must be in 0..59")
  else .ok ⟨year, month, day, hour, minute⟩

/-- The calendar day before `(y, m, d)`. -/
def prevDay (y m d : ℤ) : ℤ × ℤ × ℤ :=
  if 1 < d then (y, m, d - 1)
  else if 1 < m then (y, m - 1, days_in_month y (m - 1))
  else (y - 1, 12, 31)

/-- Subtraction `local_datetime - timedelta(hours=5, minutes=30)` for a datetime with
in-range time fields: borrow at most one calendar day. -/
def subtractIST (dt : PyDatetime) : PyDatetime :=
  let t := dt.hour * 60 + dt.minute - 330
  if 0 ≤ t then ⟨dt.year, dt.month, dt.day, t / 60, t % 60⟩
  else
    let t2 := t + 1440
    let p := prevDay dt.year dt.month dt.day
    ⟨p.1, p.2.1, p.2.2, t2 / 60, t2 % 60⟩

/-! ### VedicCalculatorEngine (`vedic_calculator_engine.py`) -/

namespace VedicCalculatorEngine

/-- The `PLANETS` dict in its insertion order: the Swiss Ephemeris body ids
`SUN=0, MOON=1, MERCURY=2, VENUS=3, MARS=4, JUPITER=5, SATURN=6,
MEAN_NODE=10`, mapped to display names. -/
def PLANETS : List (Nat × String) :=
  [(0, "Sun"), (1, "Moon"), (2, "Mercury"), (3, "Venus"),
   (4, "Mars"), (5, "Jupiter"), (6, "Saturn"), (10, "Rahu")]

/-- Method `_calculate_julian_day`: build the local datetime (which can raise
`ValueError`), subtract the fixed IST offset, and convert via `swe.julday`. -/
def _calculate_julian_day (eph : Ephemeris) (year month day hour minute : ℤ) :
    Except PyError ℚ :=
  match mkDatetime year month day hour minute with
  | .error e => .error e
  | .ok local_datetime =>
    let utc_datetime := subtractIST local_datetime
    .ok (eph.swe_julday utc_datetime.year utc_datetime.month utc_datetime.day
          ((utc_datetime.hour : ℚ) + (utc_datetime.minute : ℚ) / 60))

/-- Method `_calculate_lunar_nodes`: one Mean-Node query; Ketu is derived as
`(rahu_longitude + 180) % 360`, never queried. -/
def _calculate_lunar_nodes (eph : Ephemeris) (julian_day : ℚ) (rahu_id : Nat) :
    Except PyError (List String) :=
  match eph.swe_calc julian_day rahu_id with
  | .error m => .error (.otherError m)
  | .ok raw =>
    let rahu_longitude := pymod raw 360
    let ketu_longitude := pymod (rahu_longitude + 180) 360
    .ok [PositionFormatter.format_position "Rahu" rahu_longitude,
         PositionFormatter.format_position "Ketu" ketu_longitude]

/-- The `for planet_id, planet_name in PLANETS` loop of
`_calculate_planetary_positions`, with a trace of the provider calls made
(a raise aborts the loop, keeping the calls made so far). -/
def planetLoop (eph : Ephemeris) (julian_day : ℚ) :
    List (Nat × String) → Except PyError (List String) × List EphCall
  | [] => (.ok [], [])
  | (planet_id, planet_name) :: rest =>
    if planet_name = "Rahu" then
      match _calculate_lunar_nodes eph julian_day planet_id with
      | .error e => (.error e, [EphCall.body planet_id])
      | .ok rahu_ketu_results =>
        match planetLoop eph julian_day rest with
        | (.ok results, tr) => (.ok (rahu_ketu_results ++ results), EphCall.body planet_id :: tr)
        | (.error e, tr) => (.error e, EphCall.body planet_id :: tr)
    else
      match eph.swe_calc julian_day planet_id with
      | .error m => (.error (.otherError m), [EphCall.body planet_id])
      | .ok raw =>
        let longitude := pymod raw 360
        let formatted_position := PositionFormatter.format_position planet_name longitude
        match planetLoop eph julian_day rest with
        | (.ok results, tr) => (.ok (formatted_position :: results), EphCall.body planet_id :: tr)
        | (.error e, tr) => (.error e, EphCall.body planet_id :: tr)

/-- Method `_calculate_planetary_positions`: the loop over `PLANETS`. -/
def _calculate_planetary_positions (eph : Ephemeris) (julian_day : ℚ) :
    Except PyError (List String) × List EphCall :=
  planetLoop eph julian_day PLANETS

/-- Method `_calculate_ascendant`: one `houses_ex` query, ascendant normalized and
formatted. -/
def _calculate_ascendant (eph : Ephemeris) (julian_day latitude longitude : ℚ) :
    Except PyError String :=
  match eph.swe_houses_ex julian_day latitude longitude with
  | .error m => .error (.otherError m)
  | .ok ascmc0 =>
    .ok (PositionFormatter.format_position "Ascendant" (pymod ascmc0 360))

/-- Method `calculate_positions`: julian day, planetary loop, ascendant, and the
concatenated results, with the ephemeris-call trace. -/
def calculate_positions (eph : Ephemeris) (_name : String)
    (year month day hour minute : ℤ) (latitude longitude : ℚ) :
    Except PyError (List String) × List EphCall :=
  match _calculate_julian_day eph year month day hour minute with
  | .error e => (.error e, [])
  | .ok julian_day =>
    match _calculate_planetary_positions eph julian_day with
    | (.error e, tr) => (.error e, tr)
    | (.ok planetary_results, tr) =>
      match _calculate_ascendant eph julian_day latitude longitude with
      | .error e => (.error e, tr ++ [EphCall.ascendant])
      | .ok ascendant_result =>
        (.ok (planetary_results ++ [ascendant_result]), tr ++ [EphCall.ascendant])

end VedicCalculatorEngine

/-! ### LocationResolver (`location_resolver.py`) -/

namespace LocationResolver

/-- Outcome of one Nominatim HTTP request, as seen after JSON decoding:
a `requests` exception, a malformed-data exception (`KeyError` /
`ValueError` / `IndexError` while reading `lat`/`lon`), or the decoded
array of results with their parsed coordinates. -/
inductive NominatimOutcome where
  | requestError (msg : String)
  | parseError (msg : String)
  | results (data : List (ℚ × ℚ))

/-- The geocoding provider as an oracle from query string to outcome. -/
structure GeoProvider where
  query : String → NominatimOutcome

/-- Method `_validate_coordinates`: both resolution paths use this range check. -/
def _validate_coordinates (latitude longitude : ℚ) : Bool :=
  decide (-90 ≤ latitude ∧ latitude ≤ 90 ∧ -180 ≤ longitude ∧ longitude ≤ 180)

/-- Method `_query_nominatim`: one provider query; every failure mode (request
exception, malformed data, empty result array, out-of-range coordinate)
is caught and becomes `none`. -/
def _query_nominatim (p : GeoProvider) (query : String) : Option (ℚ × ℚ) :=
  match p.query query with
  | .requestError _ => none
  | .parseError _ => none
  | .results data =>
    match data with
    | [] => none
    | (latitude, longitude) :: _ =>
      if _validate_coordinates latitude longitude then some (latitude, longitude) else none

/-- One iteration of the manual-entry loop: read both inputs, strip them,
reject empty input, parse both as floats (`ValueError` is caught), and
range-check. -/
def manualAttempt (pair : String × String) : Option (ℚ × ℚ) :=
  let lat_input := pyStrip pair.1
  let lon_input := pyStrip pair.2
  if lat_input = "" ∨ lon_input = "" then none
  else
    match pyParseFloat lat_input, pyParseFloat lon_input with
    | some latitude, some longitude =>
      if _validate_coordinates latitude longitude then some (latitude, longitude) else none
    | _, _ => none

/-- The `for attempt in range(max_attempts)` loop of
`_get_manual_coordinates`; `inp` is the interactive input oracle giving the
two lines typed on each attempt. -/
def manualLoop (inp : Nat → String × String) : List Nat → Option (ℚ × ℚ)
  | [] => none
  | attempt :: rest =>
    match manualAttempt (inp attempt) with
    | some c => some c
    | none => manualLoop inp rest

/-- Method `_get_manual_coordinates`: up to `max_attempts = 3` attempts, `None`
when the budget is exhausted. -/
def _get_manual_coordinates (inp : Nat → String × String) : Option (ℚ × ℚ) :=
  manualLoop inp [0, 1, 2]

/-- The three search queries of `get_coordinates`, most specific first. -/
def search_queries (district state country : String) : List String :=
  [district ++ ", " ++ state ++ ", " ++ country,
   district ++ ", " ++ country,
   state ++ ", " ++ country]

/-- The `for query in search_queries` loop of `get_coordinates`, with the
trace of queries actually issued to the provider. -/
def queryCascade (p : GeoProvider) : List String → Option (ℚ × ℚ) × List String
  | [] => (none, [])
  | q :: rest =>
    match _query_nominatim p q with
    | some coordinates => (some coordinates, [q])
    | none =>
      let r := queryCascade p rest
      (r.1, q :: r.2)

/-- Method `get_coordinates`: the cascade over the three queries, then the manual
fallback when every automated attempt has failed.  The second component is
the list of provider queries issued. -/
def get_coordinates (p : GeoProvider) (inp : Nat → String × String)
    (district state country : String) : Option (ℚ × ℚ) × List String :=
  let r := queryCascade p (search_queries district state country)
  match r.1 with
  | some coordinates => (some coordinates, r.2)
  | none => (_get_manual_coordinates inp, r.2)

end LocationResolver

/-! ### Top-level orchestration (`planetary_position_calculator.py`) -/

/-- The `CalculationResult` dictionary: the success shape
`{success: True, positions, location, coordinates}` or the failure shape
`{success: False, error}`. -/
inductive CalcResult where
  | success (positions : List String) (location : String) (coordinates : String)
  | failure (error : String)
  deriving DecidableEq

/-- The validated birth data dictionary. -/
structure BirthData where
  year : ℤ
  month : ℤ
  day : ℤ
  hour : ℤ
  minute : ℤ
  deriving DecidableEq

/-- Python `int(s)` raising `ValueError` on failure, with Python's
"invalid literal" message (the original string quoted in the message). -/
def pyInt (s : String) : Except PyError ℤ :=
  match pyParseInt s with
  | some n => .ok n
  | none => .error (.valueError ("invalid literal for int() with base 10: \x27" ++ s ++ "\x27"))

/-- The `try` body of `_validate_birth_data`: parse the five fields in
dictionary order, then range-check in the fixed order
year → month → day → hour → minute, raising on the first violation. -/
def validateChecks (year month day hour minute : String) : Except PyError BirthData :=
  match pyInt year with
  | .error e => .error e
  | .ok y =>
  match pyInt month with
  | .error e => .error e
  | .ok mo =>
  match pyInt day with
  | .error e => .error e
  | .ok d =>
  match pyInt hour with
  | .error e => .error e
  | .ok h =>
  match pyInt minute with
  | .error e => .error e
  | .ok mi =>
  if ¬ (1900 ≤ y ∧ y ≤ 2100) then
    .error (.valueError ("Year must be between 1900 and 2100, got " ++ pyStr y))
  else if ¬ (1 ≤ mo ∧ mo ≤ 12) then
    .error (.valueError ("Month must be between 1 and 12, got " ++ pyStr mo))
  else if ¬ (1 ≤ d ∧ d ≤ 31) then
    .error (.valueError ("Day must be between 1 and 31, got " ++ pyStr d))
  else if ¬ (0 ≤ h ∧ h ≤ 23) then
    .error (.valueError ("Hour must be between 0 and 23, got " ++ pyStr h))
  else if ¬ (0 ≤ mi ∧ mi ≤ 59) then
    .error (.valueError ("Minute must be between 0 and 59, got " ++ pyStr mi))
  else .ok ⟨y, mo, d, h, mi⟩

/-- Function `_validate_birth_data`: the `try` body plus the `except ValueError`
clause, which conflates any "invalid literal" parse failure into the one
generic message and re-raises every other `ValueError` unchanged. -/
def _validate_birth_data (year month day hour minute : String) : Except PyError BirthData :=
  match validateChecks year month day hour minute with
  | .error (.valueError msg) =>
    if strContains msg "invalid literal" then
      .error (.valueError "All birth data must be valid numbers")
    else .error (.valueError msg)
  | r => r

/-- The `try` body of `calculate_planetary_positions`, with the ephemeris
call trace.  Validation, then location resolution (a `None` coordinate
short-circuits into the failure dictionary), then the engine. -/
def calculate_planetary_positions_inner (eph : Ephemeris)
    (geo : LocationResolver.GeoProvider) (inp : Nat → String × String)
    (birth_year birth_month birth_day birth_hour birth_minute : String)
    (district state country user_name : String) :
    Except PyError CalcResult × List EphCall :=
  match _validate_birth_data birth_year birth_month birth_day birth_hour birth_minute with
  | .error e => (.error e, [])
  | .ok birth_data =>
    match (LocationResolver.get_coordinates geo inp district state country).1 with
    | none =>
      (.ok (.failure ("Could not resolve location: " ++ district ++ ", " ++ state ++ ", " ++ country)), [])
    | some (latitude, longitude) =>
      match VedicCalculatorEngine.calculate_positions eph user_name
          birth_data.year birth_data.month birth_data.day birth_data.hour birth_data.minute
          latitude longitude with
      | (.error e, tr) => (.error e, tr)
      | (.ok planetary_positions, tr) =>
        (.ok (.success planetary_positions
              (district ++ ", " ++ state ++ ", " ++ country)
              (fmtFixed4 latitude ++ "°, " ++ fmtFixed4 longitude ++ "°")), tr)

/-- Function `calculate_planetary_positions` with its ephemeris call trace: the
`try` body wrapped in the `except ValueError` / `except Exception`
handlers, so that every raised error terminates in a failure dictionary. -/
def calculate_planetary_positions_traced (eph : Ephemeris)
    (geo : LocationResolver.GeoProvider) (inp : Nat → String × String)
    (birth_year birth_month birth_day birth_hour birth_minute : String)
    (district state country user_name : String) :
    CalcResult × List EphCall :=
  match calculate_planetary_positions_inner eph geo inp
      birth_year birth_month birth_day birth_hour birth_minute
      district state country user_name with
  | (.ok r, tr) => (r, tr)
  | (.error (.valueError m), tr) => (.failure ("Invalid birth data: " ++ m), tr)
  | (.error (.otherError m), tr) => (.failure ("Calculation failed: " ++ m), tr)

/-- Function `calculate_planetary_positions`: the single value returned across the
system boundary. -/
def calculate_planetary_positions (eph : Ephemeris)
    (geo : LocationResolver.GeoProvider) (inp : Nat → String × String)
    (birth_year birth_month birth_day birth_hour birth_minute : String)
    (district state country user_name : String) : CalcResult :=
  (calculate_planetary_positions_traced eph geo inp
      birth_year birth_month birth_day birth_hour birth_minute
      district state country user_name).1

/-! ### Arithmetic facts about the Python helpers -/

theorem pymod_nonneg (x : ℚ) {y : ℚ} (hy : 0 < y) : 0 ≤ pymod x y := by
  unfold pymod
  have h := Int.floor_le (x / y)
  have h2 : y * ((⌊x / y⌋ : ℤ) : ℚ) ≤ y * (x / y) := mul_le_mul_of_nonneg_left h hy.le
  have h3 : x / y * y = x := div_mul_cancel₀ x hy.ne'
  rw [mul_comm y (x / y)] at h2
  linarith

theorem pymod_lt (x : ℚ) {y : ℚ} (hy : 0 < y) : pymod x y < y := by
  unfold pymod
  have h := Int.lt_floor_add_one (x / y)
  have h2 : y * (x / y) < y * (((⌊x / y⌋ : ℤ) : ℚ) + 1) := mul_lt_mul_of_pos_left h hy
  have h3 : x / y * y = x := div_mul_cancel₀ x hy.ne'
  rw [mul_comm y (x / y)] at h2
  have := mul_add y ((⌊x / y⌋ : ℤ) : ℚ) 1
  linarith

theorem pymod_add_floor (x : ℚ) (y : ℚ) : x = y * ⌊x / y⌋ + pymod x y := by
  unfold pymod; ring

theorem pytrunc_of_nonneg {q : ℚ} (h : 0 ≤ q) : pytrunc q = ⌊q⌋ := if_pos h

theorem pytrunc_intCast (k : ℤ) : pytrunc (k : ℚ) = k := by
  unfold pytrunc
  split
  · exact Int.floor_intCast k
  · rw [← Int.cast_neg, Int.floor_intCast]; omega

theorem sign_index_eq_floor (L : ℚ) : PositionFormatter.sign_index L = ⌊L / 30⌋ := by
  unfold PositionFormatter.sign_index pyfloordiv
  exact pytrunc_intCast _

theorem degrees_eq_floor (L : ℚ) : PositionFormatter.degrees L = ⌊pymod L 30⌋ := by
  unfold PositionFormatter.degrees PositionFormatter.degrees_in_sign
  exact pytrunc_of_nonneg (pymod_nonneg L (by norm_num))

theorem minutes_eq_floor (L : ℚ) :
    PositionFormatter.minutes L = ⌊(pymod L 30 - (⌊pymod L 30⌋ : ℚ)) * 60⌋ := by
  have hm0 : 0 ≤ pymod L 30 := pymod_nonneg L (by norm_num)
  have hfl : ((⌊pymod L 30⌋ : ℤ) : ℚ) ≤ pymod L 30 := Int.floor_le _
  unfold PositionFormatter.minutes PositionFormatter.degrees_in_sign
  rw [degrees_eq_floor]
  exact pytrunc_of_nonneg (by nlinarith)

/-- Claim C8: for `0 ≤ L < 360`, `format_position`'s derived fields are
`signIndex = ⌊L/30⌋ ∈ [0,11]` (in bounds for the 12-entry zodiac table),
`degreeInSign = ⌊L mod 30⌋ ∈ [0,29]`, and
`minuteInSign = ⌊(L mod 30 - ⌊L mod 30⌋)·60⌋ ∈ [0,59]`. -/
theorem c8_position_fields_in_bounds (L : ℚ) (h0 : 0 ≤ L) (h1 : L < 360) :
    PositionFormatter.sign_index L = ⌊L / 30⌋ ∧
    0 ≤ PositionFormatter.sign_index L ∧ PositionFormatter.sign_index L ≤ 11 ∧
    (PositionFormatter.sign_index L).toNat < PositionFormatter.ZODIAC_SIGNS.length ∧
    PositionFormatter.degrees L = ⌊pymod L 30⌋ ∧
    0 ≤ PositionFormatter.degrees L ∧ PositionFormatter.degrees L ≤ 29 ∧
    PositionFormatter.minutes L = ⌊(pymod L 30 - (⌊pymod L 30⌋ : ℚ)) * 60⌋ ∧
    0 ≤ PositionFormatter.minutes L ∧ PositionFormatter.minutes L ≤ 59 := by
  have hsi := sign_index_eq_floor L
  have hsi0 : 0 ≤ ⌊L / 30⌋ := Int.floor_nonneg.mpr (by positivity)
  have hsi11 : ⌊L / 30⌋ ≤ 11 := by
    have : ⌊L / 30⌋ < 12 := Int.floor_lt.mpr (by push_cast; linarith)
    omega
  have hm0 : 0 ≤ pymod L 30 := pymod_nonneg L (by norm_num)
  have hm30 : pymod L 30 < 30 := pymod_lt L (by norm_num)
  have hdeg := degrees_eq_floor L
  have hdeg0 : 0 ≤ ⌊pymod L 30⌋ := Int.floor_nonneg.mpr hm0
  have hdeg29 : ⌊pymod L 30⌋ ≤ 29 := by
    have : ⌊pymod L 30⌋ < 30 := Int.floor_lt.mpr (by push_cast; linarith)
    omega
  have hmin := minutes_eq_floor L
  have hfr0 : 0 ≤ pymod L 30 - (⌊pymod L 30⌋ : ℚ) := by
    have := Int.floor_le (pymod L 30); linarith
  have hfr1 : pymod L 30 - (⌊pymod L 30⌋ : ℚ) < 1 := by
    have := Int.lt_floor_add_one (pymod L 30); linarith
  have hmin0 : 0 ≤ ⌊(pymod L 30 - (⌊pymod L 30⌋ : ℚ)) * 60⌋ :=
    Int.floor_nonneg.mpr (by nlinarith)
  have hmin59 : ⌊(pymod L 30 - (⌊pymod L 30⌋ : ℚ)) * 60⌋ ≤ 59 := by
    have : ⌊(pymod L 30 - (⌊pymod L 30⌋ : ℚ)) * 60⌋ < 60 :=
      Int.floor_lt.mpr (by push_cast; nlinarith)
    omega
  refine ⟨hsi, ?_, ?_, ?_, hdeg, ?_, ?_, hmin, ?_, ?_⟩
  · rw [hsi]; exact hsi0
  · rw [hsi]; exact hsi11
  · have h12 : PositionFormatter.ZODIAC_SIGNS.length = 12 := by decide
    rw [h12, hsi]
    omega
  · rw [hdeg]; exact hdeg0
  · rw [hdeg]; exact hdeg29
  · rw [hmin]; exact hmin0
  · rw [hmin]; exact hmin59

/-- Claim C9: for `0 ≤ L < 360`, reconstructing
`signIndex·30 + degreeInSign + minuteInSign/60` from the formatted fields
under-approximates `L` by less than one minute of arc (`1/60` degree),
the error being truncation only. -/
theorem c9_reconstruction_within_arcminute (L : ℚ) (h0 : 0 ≤ L) (h1 : L < 360) :
    0 ≤ L - ((PositionFormatter.sign_index L : ℚ) * 30 +
      (PositionFormatter.degrees L : ℚ) + (PositionFormatter.minutes L : ℚ) / 60) ∧
    L - ((PositionFormatter.sign_index L : ℚ) * 30 +
      (PositionFormatter.degrees L : ℚ) + (PositionFormatter.minutes L : ℚ) / 60) < 1/60 := by
  have hL : L = 30 * (⌊L / 30⌋ : ℚ) + pymod L 30 := by
    have := pymod_add_floor L 30; linarith
  have hsi := sign_index_eq_floor L
  have hdeg := degrees_eq_floor L
  have hmin := minutes_eq_floor L
  set m := pymod L 30 with hm
  set f : ℚ := m - (⌊m⌋ : ℚ) with hf
  have hminle : ((⌊f * 60⌋ : ℤ) : ℚ) ≤ f * 60 := Int.floor_le _
  have hminlt : f * 60 < ((⌊f * 60⌋ : ℤ) : ℚ) + 1 := Int.lt_floor_add_one _
  rw [hsi, hdeg, hmin]
  constructor
  · linarith
  · linarith

/-! ### Engine lemmas -/

theorem planetLoop_cons_ok_notRahu (eph : Ephemeris) (jd : ℚ) (pid : Nat) (pname : String)
    (rest : List (Nat × String)) (res : List String) (tr : List EphCall)
    (hname : ¬ pname = "Rahu")
    (h : VedicCalculatorEngine.planetLoop eph jd ((pid, pname) :: rest) = (.ok res, tr)) :
    ∃ a res2 tr2, eph.swe_calc jd pid = .ok a ∧
      VedicCalculatorEngine.planetLoop eph jd rest = (.ok res2, tr2) ∧
      res = PositionFormatter.format_position pname (pymod a 360) :: res2 ∧
      tr = EphCall.body pid :: tr2 := by
  rw [VedicCalculatorEngine.planetLoop, if_neg hname] at h
  cases hc : eph.swe_calc jd pid with
  | error m => rw [hc] at h; simp at h
  | ok a =>
    rw [hc] at h
    rcases hr : VedicCalculatorEngine.planetLoop eph jd rest with ⟨e | res2, tr2⟩
    · rw [hr] at h; simp at h
    · rw [hr] at h
      simp only [Prod.mk.injEq, Except.ok.injEq] at h
      exact ⟨a, res2, tr2, rfl, rfl, by rw [← h.1], by rw [← h.2]⟩

theorem planetLoop_cons_ok_Rahu (eph : Ephemeris) (jd : ℚ) (pid : Nat)
    (rest : List (Nat × String)) (res : List String) (tr : List EphCall)
    (h : VedicCalculatorEngine.planetLoop eph jd ((pid, "Rahu") :: rest) = (.ok res, tr)) :
    ∃ x res2 tr2, eph.swe_calc jd pid = .ok x ∧
      VedicCalculatorEngine.planetLoop eph jd rest = (.ok res2, tr2) ∧
      res = PositionFormatter.format_position "Rahu" (pymod x 360) ::
            PositionFormatter.format_position "Ketu" (pymod (pymod x 360 + 180) 360) :: res2 ∧
      tr = EphCall.body pid :: tr2 := by
  rw [VedicCalculatorEngine.planetLoop, if_pos rfl] at h
  cases hc : eph.swe_calc jd pid with
  | error m =>
    rw [show VedicCalculatorEngine._calculate_lunar_nodes eph jd pid = .error (.otherError m) by
      rw [VedicCalculatorEngine._calculate_lunar_nodes, hc]] at h
    simp at h
  | ok x =>
    rw [show VedicCalculatorEngine._calculate_lunar_nodes eph jd pid =
        .ok [PositionFormatter.format_position "Rahu" (pymod x 360),
             PositionFormatter.format_position "Ketu" (pymod (pymod x 360 + 180) 360)] by
      rw [VedicCalculatorEngine._calculate_lunar_nodes, hc]] at h
    rcases hr : VedicCalculatorEngine.planetLoop eph jd rest with ⟨e | res2, tr2⟩
    · rw [hr] at h; simp at h
    · rw [hr] at h
      simp only [Prod.mk.injEq, Except.ok.injEq] at h
      exact ⟨x, res2, tr2, rfl, rfl, by rw [← h.1]; rfl, by rw [← h.2]⟩

theorem planetLoop_nil_ok (eph : Ephemeris) (jd : ℚ) (res : List String) (tr : List EphCall)
    (h : VedicCalculatorEngine.planetLoop eph jd [] = (.ok res, tr)) : res = [] ∧ tr = [] := by
  rw [VedicCalculatorEngine.planetLoop] at h
  simp only [Prod.mk.injEq, Except.ok.injEq] at h
  exact ⟨h.1.symm, h.2.symm⟩

theorem planetLoop_trace_le (eph : Ephemeris) (jd : ℚ) :
    ∀ ps : List (Nat × String),
      (VedicCalculatorEngine.planetLoop eph jd ps).2 <+: ps.map (fun p => EphCall.body p.1) := by
  intro ps
  induction ps with
  | nil => simp [VedicCalculatorEngine.planetLoop]
  | cons p rest ih =>
    obtain ⟨pid, pname⟩ := p
    rw [VedicCalculatorEngine.planetLoop]
    split
    · cases hl : VedicCalculatorEngine._calculate_lunar_nodes eph jd pid with
      | error e => exact ⟨_, rfl⟩
      | ok rk =>
        rcases hr : VedicCalculatorEngine.planetLoop eph jd rest with ⟨e | res2, tr2⟩ <;>
        · rw [hr] at ih
          obtain ⟨t, ht⟩ := ih
          exact ⟨t, by simp [← ht]⟩
    · cases hc : eph.swe_calc jd pid with
      | error m => exact ⟨_, rfl⟩
      | ok raw =>
        rcases hr : VedicCalculatorEngine.planetLoop eph jd rest with ⟨e | res2, tr2⟩ <;>
        · rw [hr] at ih
          obtain ⟨t, ht⟩ := ih
          exact ⟨t, by simp [← ht]⟩

theorem ascendant_ok (eph : Ephemeris) (jd lat lon : ℚ) (s : String)
    (h : VedicCalculatorEngine._calculate_ascendant eph jd lat lon = .ok s) :
    ∃ a, eph.swe_houses_ex jd lat lon = .ok a ∧
      s = PositionFormatter.format_position "Ascendant" (pymod a 360) := by
  rw [VedicCalculatorEngine._calculate_ascendant] at h
  cases hc : eph.swe_houses_ex jd lat lon with
  | error m => rw [hc] at h; simp at h
  | ok a =>
    rw [hc] at h
    simp only [Except.ok.injEq] at h
    exact ⟨a, rfl, h.symm⟩

/-- Claim C2: Ketu's longitude is exactly `(Rahu + 180) mod 360` where Rahu
comes from the single Mean-Node (`MEAN_NODE = 10`) query, and the engine's
provider-call trace is always a prefix of the eight fixed body queries —
so the Mean Node is queried at most once and Ketu is never queried
independently. -/
theorem c2_ketu_derived_from_single_mean_node_query :
    (∀ (eph : Ephemeris) (julian_day x : ℚ),
        eph.swe_calc julian_day 10 = .ok x →
        VedicCalculatorEngine._calculate_lunar_nodes eph julian_day 10 =
          .ok [PositionFormatter.format_position "Rahu" (pymod x 360),
               PositionFormatter.format_position "Ketu" (pymod (pymod x 360 + 180) 360)]) ∧
    (∀ (eph : Ephemeris) (julian_day : ℚ),
        (VedicCalculatorEngine._calculate_planetary_positions eph julian_day).2 <+:
          [EphCall.body 0, EphCall.body 1, EphCall.body 2, EphCall.body 3,
           EphCall.body 4, EphCall.body 5, EphCall.body 6, EphCall.body 10]) := by
  constructor
  · intro eph jd x h
    rw [VedicCalculatorEngine._calculate_lunar_nodes, h]
  · intro eph jd
    have h := planetLoop_trace_le eph jd VedicCalculatorEngine.PLANETS
    simpa [VedicCalculatorEngine._calculate_planetary_positions,
           VedicCalculatorEngine.PLANETS] using h

theorem planetLoop_PLANETS_ok (eph : Ephemeris) (jd : ℚ) (res : List String) (tr : List EphCall)
    (h : VedicCalculatorEngine.planetLoop eph jd VedicCalculatorEngine.PLANETS = (.ok res, tr)) :
    ∃ a1 a2 a3 a4 a5 a6 a7 x,
      res = [PositionFormatter.format_position "Sun" (pymod a1 360),
             PositionFormatter.format_position "Moon" (pymod a2 360),
             PositionFormatter.format_position "Mercury" (pymod a3 360),
             PositionFormatter.format_position "Venus" (pymod a4 360),
             PositionFormatter.format_position "Mars" (pymod a5 360),
             PositionFormatter.format_position "Jupiter" (pymod a6 360),
             PositionFormatter.format_position "Saturn" (pymod a7 360),
             PositionFormatter.format_position "Rahu" (pymod x 360),
             PositionFormatter.format_position "Ketu" (pymod (pymod x 360 + 180) 360)] := by
  rw [VedicCalculatorEngine.PLANETS] at h
  obtain ⟨a1, r1, t1, hc1, hL1, he1, _⟩ :=
    planetLoop_cons_ok_notRahu eph jd 0 "Sun" _ res tr (by decide) h
  obtain ⟨a2, r2, t2, hc2, hL2, he2, _⟩ :=
    planetLoop_cons_ok_notRahu eph jd 1 "Moon" _ r1 t1 (by decide) hL1
  obtain ⟨a3, r3, t3, hc3, hL3, he3, _⟩ :=
    planetLoop_cons_ok_notRahu eph jd 2 "Mercury" _ r2 t2 (by decide) hL2
  obtain ⟨a4, r4, t4, hc4, hL4, he4, _⟩ :=
    planetLoop_cons_ok_notRahu eph jd 3 "Venus" _ r3 t3 (by decide) hL3
  obtain ⟨a5, r5, t5, hc5, hL5, he5, _⟩ :=
    planetLoop_cons_ok_notRahu eph jd 4 "Mars" _ r4 t4 (by decide) hL4
  obtain ⟨a6, r6, t6, hc6, hL6, he6, _⟩ :=
    planetLoop_cons_ok_notRahu eph jd 5 "Jupiter" _ r5 t5 (by decide) hL5
  obtain ⟨a7, r7, t7, hc7, hL7, he7, _⟩ :=
    planetLoop_cons_ok_notRahu eph jd 6 "Saturn" _ r6 t6 (by decide) hL6
  obtain ⟨x, r8, t8, hc8, hL8, he8, _⟩ :=
    planetLoop_cons_ok_Rahu eph jd 10 _ r7 t7 hL7
  obtain ⟨hr8, _⟩ := planetLoop_nil_ok eph jd r8 t8 hL8
  refine ⟨a1, a2, a3, a4, a5, a6, a7, x, ?_⟩
  rw [he1, he2, he3, he4, he5, he6, he7, he8, hr8]

/-- Claim C1: every successful engine computation returns exactly 10
formatted position strings, produced by `format_position` in the fixed
order Sun, Moon, Mercury, Venus, Mars, Jupiter, Saturn, Rahu, Ketu,
Ascendant. -/
theorem c1_ten_formatted_positions_in_canonical_order
    (eph : Ephemeris) (name : String) (year month day hour minute : ℤ)
    (latitude longitude : ℚ) (res : List String) (tr : List EphCall)
    (h : VedicCalculatorEngine.calculate_positions eph name year month day hour minute
          latitude longitude = (.ok res, tr)) :
    res.length = 10 ∧
    ∃ l1 l2 l3 l4 l5 l6 l7 l8 l9 l10,
      res = [PositionFormatter.format_position "Sun" l1,
             PositionFormatter.format_position "Moon" l2,
             PositionFormatter.format_position "Mercury" l3,
             PositionFormatter.format_position "Venus" l4,
             PositionFormatter.format_position "Mars" l5,
             PositionFormatter.format_position "Jupiter" l6,
             PositionFormatter.format_position "Saturn" l7,
             PositionFormatter.format_position "Rahu" l8,
             PositionFormatter.format_position "Ketu" l9,
             PositionFormatter.format_position "Ascendant" l10] := by
  rw [VedicCalculatorEngine.calculate_positions] at h
  split at h
  · simp at h
  · rename_i jd hjd
    split at h
    · simp at h
    · rename_i pr tr2 hpp
      split at h
      · simp at h
      · rename_i asc hasc
        simp only [Prod.mk.injEq, Except.ok.injEq] at h
        obtain ⟨a, _, hs⟩ := ascendant_ok eph jd latitude longitude asc hasc
        rw [VedicCalculatorEngine._calculate_planetary_positions] at hpp
        obtain ⟨a1, a2, a3, a4, a5, a6, a7, x, hpr⟩ :=
          planetLoop_PLANETS_ok eph jd pr tr2 hpp
        constructor
        · rw [← h.1, hpr]; rfl
        · exact ⟨pymod a1 360, pymod a2 360, pymod a3 360, pymod a4 360, pymod a5 360,
                 pymod a6 360, pymod a7 360, pymod x 360, pymod (pymod x 360 + 180) 360,
                 pymod a 360, by rw [← h.1, hpr, hs]; rfl⟩

/-- A trivial always-succeeding ephemeris oracle used for concrete runs. -/
def ephConst : Ephemeris :=
  ⟨fun _ _ => .ok 100, fun _ _ _ => .ok 5, fun _ _ _ _ => 0⟩

theorem c1_witness :
    (VedicCalculatorEngine.calculate_positions ephConst "A" 1990 5 15 14 30 19 72 =
      (.ok [PositionFormatter.format_position "Sun" (pymod 100 360),
            PositionFormatter.format_position "Moon" (pymod 100 360),
            PositionFormatter.format_position "Mercury" (pymod 100 360),
            PositionFormatter.format_position "Venus" (pymod 100 360),
            PositionFormatter.format_position "Mars" (pymod 100 360),
            PositionFormatter.format_position "Jupiter" (pymod 100 360),
            PositionFormatter.format_position "Saturn" (pymod 100 360),
            PositionFormatter.format_position "Rahu" (pymod 100 360),
            PositionFormatter.format_position "Ketu" (pymod (pymod 100 360 + 180) 360),
            PositionFormatter.format_position "Ascendant" (pymod 5 360)],
       [EphCall.body 0, EphCall.body 1, EphCall.body 2, EphCall.body 3, EphCall.body 4,
        EphCall.body 5, EphCall.body 6, EphCall.body 10, EphCall.ascendant])) ∧
    ([PositionFormatter.format_position "Sun" (pymod 100 360),
      PositionFormatter.format_position "Moon" (pymod 100 360),
      PositionFormatter.format_position "Mercury" (pymod 100 360),
      PositionFormatter.format_position "Venus" (pymod 100 360),
      PositionFormatter.format_position "Mars" (pymod 100 360),
      PositionFormatter.format_position "Jupiter" (pymod 100 360),
      PositionFormatter.format_position "Saturn" (pymod 100 360),
      PositionFormatter.format_position "Rahu" (pymod 100 360),
      PositionFormatter.format_position "Ketu" (pymod (pymod 100 360 + 180) 360),
      PositionFormatter.format_position "Ascendant" (pymod 5 360)] : List String).length = 10 ∧
    (∃ l1 l2 l3 l4 l5 l6 l7 l8 l9 l10,
      [PositionFormatter.format_position "Sun" (pymod 100 360),
       PositionFormatter.format_position "Moon" (pymod 100 360),
       PositionFormatter.format_position "Mercury" (pymod 100 360),
       PositionFormatter.format_position "Venus" (pymod 100 360),
       PositionFormatter.format_position "Mars" (pymod 100 360),
       PositionFormatter.format_position "Jupiter" (pymod 100 360),
       PositionFormatter.format_position "Saturn" (pymod 100 360),
       PositionFormatter.format_position "Rahu" (pymod 100 360),
       PositionFormatter.format_position "Ketu" (pymod (pymod 100 360 + 180) 360),
       PositionFormatter.format_position "Ascendant" (pymod 5 360)] =
        [PositionFormatter.format_position "Sun" l1,
         PositionFormatter.format_position "Moon" l2,
         PositionFormatter.format_position "Mercury" l3,
         PositionFormatter.format_position "Venus" l4,
         PositionFormatter.format_position "Mars" l5,
         PositionFormatter.format_position "Jupiter" l6,
         PositionFormatter.format_position "Saturn" l7,
         PositionFormatter.format_position "Rahu" l8,
         PositionFormatter.format_position "Ketu" l9,
         PositionFormatter.format_position "Ascendant" l10]) := by
  refine ⟨rfl, ?_⟩
  exact c1_ten_formatted_positions_in_canonical_order ephConst "A" 1990 5 15 14 30 19 72 _ _ rfl

theorem c2_witness :
    (ephConst.swe_calc 0 10 = .ok 100) ∧
    VedicCalculatorEngine._calculate_lunar_nodes ephConst 0 10 =
      .ok [PositionFormatter.format_position "Rahu" (pymod 100 360),
           PositionFormatter.format_position "Ketu" (pymod (pymod 100 360 + 180) 360)] :=
  ⟨rfl, c2_ketu_derived_from_single_mean_node_query.1 ephConst 0 100 rfl⟩

theorem c8_witness :
    ((0 : ℚ) ≤ 100 ∧ (100 : ℚ) < 360) ∧
    (PositionFormatter.sign_index 100 = ⌊(100 : ℚ) / 30⌋ ∧
     0 ≤ PositionFormatter.sign_index 100 ∧ PositionFormatter.sign_index 100 ≤ 11 ∧
     (PositionFormatter.sign_index 100).toNat < PositionFormatter.ZODIAC_SIGNS.length ∧
     PositionFormatter.degrees 100 = ⌊pymod 100 30⌋ ∧
     0 ≤ PositionFormatter.degrees 100 ∧ PositionFormatter.degrees 100 ≤ 29 ∧
     PositionFormatter.minutes 100 = ⌊(pymod 100 30 - (⌊pymod 100 30⌋ : ℚ)) * 60⌋ ∧
     0 ≤ PositionFormatter.minutes 100 ∧ PositionFormatter.minutes 100 ≤ 59) :=
  ⟨⟨by norm_num, by norm_num⟩,
   c8_position_fields_in_bounds 100 (by norm_num) (by norm_num)⟩

theorem c9_witness :
    ((0 : ℚ) ≤ 100 ∧ (100 : ℚ) < 360) ∧
    (0 ≤ (100 : ℚ) - ((PositionFormatter.sign_index 100 : ℚ) * 30 +
        (PositionFormatter.degrees 100 : ℚ) + (PositionFormatter.minutes 100 : ℚ) / 60) ∧
     (100 : ℚ) - ((PositionFormatter.sign_index 100 : ℚ) * 30 +
        (PositionFormatter.degrees 100 : ℚ) + (PositionFormatter.minutes 100 : ℚ) / 60) < 1/60) :=
  ⟨⟨by norm_num, by norm_num⟩,
   c9_reconstruction_within_arcminute 100 (by norm_num) (by norm_num)⟩

/-! ### String lemmas for the validator's "invalid literal" test -/

theorem string_data_append (s t : String) : (s ++ t).data = s.data ++ t.data := rfl

theorem digitChar_ne_v (d : Nat) : digitChar d ≠ 'v' := by
  unfold digitChar
  split_ifs <;> decide

theorem natDigitCharsAux_ne_v (fuel : Nat) : ∀ n c, c ∈ natDigitCharsAux fuel n → c ≠ 'v' := by
  induction fuel with
  | zero => intro n c hc; simp [natDigitCharsAux] at hc
  | succ fuel ih =>
    intro n c hc
    rw [natDigitCharsAux] at hc
    split at hc
    · simp only [List.mem_singleton] at hc
      subst hc; exact digitChar_ne_v n
    · rw [List.mem_append] at hc
      rcases hc with hc | hc
      · exact ih _ _ hc
      · simp only [List.mem_singleton] at hc
        subst hc; exact digitChar_ne_v _

theorem pyStr_ne_v (n : ℤ) : 'v' ∉ (pyStr n).data := by
  unfold pyStr
  split
  · intro hmem
    rw [show (("-" : String) ++ String.mk (natDigitChars n.natAbs)).data
        = '-' :: natDigitChars n.natAbs from rfl] at hmem
    simp only [List.mem_cons] at hmem
    rcases hmem with h | h
    · exact absurd h (by decide)
    · exact natDigitCharsAux_ne_v _ _ _ h rfl
  · intro hmem
    exact natDigitCharsAux_ne_v _ _ _ hmem rfl

theorem listStartsWith_mem : ∀ (p l : List Char), listStartsWith p l = true → ∀ c ∈ p, c ∈ l := by
  intro p
  induction p with
  | nil => intro l _ c hc; simp at hc
  | cons a ps ih =>
    intro l h c hc
    cases l with
    | nil => simp [listStartsWith] at h
    | cons b cs =>
      rw [listStartsWith, Bool.and_eq_true] at h
      obtain ⟨hab, hrest⟩ := h
      have hab2 : a = b := by simpa using hab
      rcases List.mem_cons.mp hc with rfl | hc
      · subst hab2; exact List.mem_cons.mpr (Or.inl rfl)
      · exact List.mem_cons.mpr (Or.inr (ih cs hrest c hc))

theorem listContainsSub_mem : ∀ (l p : List Char), listContainsSub p l = true → ∀ c ∈ p, c ∈ l := by
  intro l
  induction l with
  | nil =>
    intro p h c hc
    cases p with
    | nil => simp at hc
    | cons x xs => simp [listContainsSub] at h
  | cons b cs ih =>
    intro p h c hc
    rw [listContainsSub, Bool.or_eq_true] at h
    rcases h with h | h
    · exact listStartsWith_mem p (b :: cs) h c hc
    · exact List.mem_cons.mpr (Or.inr (ih p h c hc))

theorem strContains_concat_pyStr_eq_false (pre : String) (hv : 'v' ∉ pre.data) (n : ℤ) :
    strContains (pre ++ pyStr n) "invalid literal" = false := by
  cases hb : strContains (pre ++ pyStr n) "invalid literal"
  · rfl
  · exfalso
    rw [strContains] at hb
    have hvmem : 'v' ∈ (pre ++ pyStr n).data :=
      listContainsSub_mem _ _ hb 'v' (by decide)
    rw [string_data_append] at hvmem
    rcases List.mem_append.mp hvmem with h1 | h1
    · exact hv h1
    · exact pyStr_ne_v n h1

theorem listStartsWith_self_append : ∀ (p t : List Char), listStartsWith p (p ++ t) = true := by
  intro p t
  induction p with
  | nil => rfl
  | cons a ps ih =>
    rw [List.cons_append, listStartsWith, Bool.and_eq_true]
    exact ⟨by simp, ih⟩

theorem listContainsSub_of_starts (p l : List Char) (h : listStartsWith p l = true) :
    listContainsSub p l = true := by
  cases l with
  | nil =>
    cases p with
    | nil => rfl
    | cons a ps => simp [listStartsWith] at h
  | cons b cs =>
    rw [listContainsSub, Bool.or_eq_true]
    exact Or.inl h

theorem strContains_invalid_literal (s : String) :
    strContains ("invalid literal for int() with base 10: \x27" ++ s ++ "\x27")
      "invalid literal" = true := by
  rw [strContains]
  have h1 : ("invalid literal for int() with base 10: \x27" : String).data
      = "invalid literal".data ++ " for int() with base 10: \x27".data := by decide
  have h2 : ("invalid literal for int() with base 10: \x27" ++ s ++ "\x27").data
      = "invalid literal".data ++ (" for int() with base 10: \x27".data ++ (s.data ++ "\x27".data)) := by
    show ("invalid literal for int() with base 10: \x27".data ++ s.data) ++ "\x27".data = _
    rw [h1]
    simp [List.append_assoc]
  rw [h2]
  exact listContainsSub_of_starts _ _ (listStartsWith_self_append _ _)

/-! ### Validator lemmas and Claim C5 -/

theorem validateChecks_nonnumeric (ystr mstr dstr hstr mistr : String)
    (h : pyParseInt ystr = none ∨ pyParseInt mstr = none ∨ pyParseInt dstr = none ∨
         pyParseInt hstr = none ∨ pyParseInt mistr = none) :
    ∃ s, validateChecks ystr mstr dstr hstr mistr =
      .error (.valueError ("invalid literal for int() with base 10: \x27" ++ s ++ "\x27")) := by
  unfold validateChecks pyInt
  rcases h with h | h | h | h | h
  · exact ⟨ystr, by rw [h]⟩
  · cases hy : pyParseInt ystr with
    | none => exact ⟨ystr, rfl⟩
    | some y => exact ⟨mstr, by rw [h]⟩
  · cases hy : pyParseInt ystr with
    | none => exact ⟨ystr, rfl⟩
    | some y =>
      cases hmo : pyParseInt mstr with
      | none => exact ⟨mstr, rfl⟩
      | some mo => exact ⟨dstr, by rw [h]⟩
  · cases hy : pyParseInt ystr with
    | none => exact ⟨ystr, rfl⟩
    | some y =>
      cases hmo : pyParseInt mstr with
      | none => exact ⟨mstr, rfl⟩
      | some mo =>
        cases hd : pyParseInt dstr with
        | none => exact ⟨dstr, rfl⟩
        | some d => exact ⟨hstr, by rw [h]⟩
  · cases hy : pyParseInt ystr with
    | none => exact ⟨ystr, rfl⟩
    | some y =>
      cases hmo : pyParseInt mstr with
      | none => exact ⟨mstr, rfl⟩
      | some mo =>
        cases hd : pyParseInt dstr with
        | none => exact ⟨dstr, rfl⟩
        | some d =>
          cases hh : pyParseInt hstr with
          | none => exact ⟨hstr, rfl⟩
          | some hr => exact ⟨mistr, by rw [h]⟩

theorem validateChecks_parsed (ystr mstr dstr hstr mistr : String) (y mo d h mi : ℤ)
    (hy : pyParseInt ystr = some y) (hmo : pyParseInt mstr = some mo)
    (hd : pyParseInt dstr = some d) (hh : pyParseInt hstr = some h)
    (hmi : pyParseInt mistr = some mi) :
    validateChecks ystr mstr dstr hstr mistr =
      (if ¬ (1900 ≤ y ∧ y ≤ 2100) then
        .error (.valueError ("Year must be between 1900 and 2100, got " ++ pyStr y))
      else if ¬ (1 ≤ mo ∧ mo ≤ 12) then
        .error (.valueError ("Month must be between 1 and 12, got " ++ pyStr mo))
      else if ¬ (1 ≤ d ∧ d ≤ 31) then
        .error (.valueError ("Day must be between 1 and 31, got " ++ pyStr d))
      else if ¬ (0 ≤ h ∧ h ≤ 23) then
        .error (.valueError ("Hour must be between 0 and 23, got " ++ pyStr h))
      else if ¬ (0 ≤ mi ∧ mi ≤ 59) then
        .error (.valueError ("Minute must be between 0 and 59, got " ++ pyStr mi))
      else .ok ⟨y, mo, d, h, mi⟩) := by
  unfold validateChecks pyInt
  rw [hy, hmo, hd, hh, hmi]

theorem validate_birth_data_parsed (ystr mstr dstr hstr mistr : String) (y mo d h mi : ℤ)
    (hy : pyParseInt ystr = some y) (hmo : pyParseInt mstr = some mo)
    (hd : pyParseInt dstr = some d) (hh : pyParseInt hstr = some h)
    (hmi : pyParseInt mistr = some mi) :
    _validate_birth_data ystr mstr dstr hstr mistr =
      (if ¬ (1900 ≤ y ∧ y ≤ 2100) then
        .error (.valueError ("Year must be between 1900 and 2100, got " ++ pyStr y))
      else if ¬ (1 ≤ mo ∧ mo ≤ 12) then
        .error (.valueError ("Month must be between 1 and 12, got " ++ pyStr mo))
      else if ¬ (1 ≤ d ∧ d ≤ 31) then
        .error (.valueError ("Day must be between 1 and 31, got " ++ pyStr d))
      else if ¬ (0 ≤ h ∧ h ≤ 23) then
        .error (.valueError ("Hour must be between 0 and 23, got " ++ pyStr h))
      else if ¬ (0 ≤ mi ∧ mi ≤ 59) then
        .error (.valueError ("Minute must be between 0 and 59, got " ++ pyStr mi))
      else .ok ⟨y, mo, d, h, mi⟩) := by
  rw [_validate_birth_data, validateChecks_parsed ystr mstr dstr hstr mistr y mo d h mi hy hmo hd hh hmi]
  split_ifs <;>
    simp [strContains_concat_pyStr_eq_false "Year must be between 1900 and 2100, got " (by decide) y,
          strContains_concat_pyStr_eq_false "Month must be between 1 and 12, got " (by decide) mo,
          strContains_concat_pyStr_eq_false "Day must be between 1 and 31, got " (by decide) d,
          strContains_concat_pyStr_eq_false "Hour must be between 0 and 23, got " (by decide) h,
          strContains_concat_pyStr_eq_false "Minute must be between 0 and 59, got " (by decide) mi]

/-- Claim C5: the validator parses the five raw fields as integers, failing
with the single generic message when any field is non-numeric; otherwise it
range-checks in the fixed order year → month → day → hour → minute, failing
on the first violation with the message naming the field, the bound and the
value; in particular the eight boundary values 1899, 2101, month 0/13,
day 0/32, hour 24 and minute 60 are each rejected. -/
theorem c5_validator_order_and_messages :
    (∀ ystr mstr dstr hstr mistr : String,
      (pyParseInt ystr = none ∨ pyParseInt mstr = none ∨ pyParseInt dstr = none ∨
       pyParseInt hstr = none ∨ pyParseInt mistr = none) →
      _validate_birth_data ystr mstr dstr hstr mistr =
        .error (.valueError "All birth data must be valid numbers")) ∧
    (∀ (ystr mstr dstr hstr mistr : String) (y mo d h mi : ℤ),
      pyParseInt ystr = some y → pyParseInt mstr = some mo → pyParseInt dstr = some d →
      pyParseInt hstr = some h → pyParseInt mistr = some mi →
      _validate_birth_data ystr mstr dstr hstr mistr =
        (if ¬ (1900 ≤ y ∧ y ≤ 2100) then
          .error (.valueError ("Year must be between 1900 and 2100, got " ++ pyStr y))
        else if ¬ (1 ≤ mo ∧ mo ≤ 12) then
          .error (.valueError ("Month must be between 1 and 12, got " ++ pyStr mo))
        else if ¬ (1 ≤ d ∧ d ≤ 31) then
          .error (.valueError ("Day must be between 1 and 31, got " ++ pyStr d))
        else if ¬ (0 ≤ h ∧ h ≤ 23) then
          .error (.valueError ("Hour must be between 0 and 23, got " ++ pyStr h))
        else if ¬ (0 ≤ mi ∧ mi ≤ 59) then
          .error (.valueError ("Minute must be between 0 and 59, got " ++ pyStr mi))
        else .ok ⟨y, mo, d, h, mi⟩)) ∧
    (_validate_birth_data "1899" "5" "15" "14" "30" =
      .error (.valueError "Year must be between 1900 and 2100, got 1899") ∧
     _validate_birth_data "2101" "5" "15" "14" "30" =
      .error (.valueError "Year must be between 1900 and 2100, got 2101") ∧
     _validate_birth_data "1990" "0" "15" "14" "30" =
      .error (.valueError "Month must be between 1 and 12, got 0") ∧
     _validate_birth_data "1990" "13" "15" "14" "30" =
      .error (.valueError "Month must be between 1 and 12, got 13") ∧
     _validate_birth_data "1990" "5" "0" "14" "30" =
      .error (.valueError "Day must be between 1 and 31, got 0") ∧
     _validate_birth_data "1990" "5" "32" "14" "30" =
      .error (.valueError "Day must be between 1 and 31, got 32") ∧
     _validate_birth_data "1990" "5" "15" "24" "30" =
      .error (.valueError "Hour must be between 0 and 23, got 24") ∧
     _validate_birth_data "1990" "5" "15" "14" "60" =
      .error (.valueError "Minute must be between 0 and 59, got 60")) := by
  refine ⟨?_, ?_, rfl, rfl, rfl, rfl, rfl, rfl, rfl, rfl⟩
  · intro ystr mstr dstr hstr mistr h
    obtain ⟨s, hs⟩ := validateChecks_nonnumeric ystr mstr dstr hstr mistr h
    rw [_validate_birth_data, hs]
    simp [strContains_invalid_literal]
  · intro ystr mstr dstr hstr mistr y mo d h mi hy hmo hd hh hmi
    exact validate_birth_data_parsed ystr mstr dstr hstr mistr y mo d h mi hy hmo hd hh hmi

theorem c5_witness :
    (pyParseInt "abc" = none ∨ pyParseInt "5" = none ∨ pyParseInt "15" = none ∨
     pyParseInt "14" = none ∨ pyParseInt "30" = none) ∧
    _validate_birth_data "abc" "5" "15" "14" "30" =
      .error (.valueError "All birth data must be valid numbers") :=
  ⟨Or.inl rfl, c5_validator_order_and_messages.1 "abc" "5" "15" "14" "30" (Or.inl rfl)⟩

/-! ### LocationResolver lemmas and Claims C6, C7 -/

theorem validate_coordinates_iff (latitude longitude : ℚ) :
    LocationResolver._validate_coordinates latitude longitude = true ↔
      (-90 ≤ latitude ∧ latitude ≤ 90 ∧ -180 ≤ longitude ∧ longitude ≤ 180) := by
  unfold LocationResolver._validate_coordinates
  exact decide_eq_true_iff

theorem query_nominatim_some (p : LocationResolver.GeoProvider) (q : String) (lat lon : ℚ)
    (h : LocationResolver._query_nominatim p q = some (lat, lon)) :
    -90 ≤ lat ∧ lat ≤ 90 ∧ -180 ≤ lon ∧ lon ≤ 180 := by
  rw [LocationResolver._query_nominatim] at h
  split at h
  · exact absurd h (by simp)
  · exact absurd h (by simp)
  · split at h
    · exact absurd h (by simp)
    · split at h
      · rename_i la lo rest hval
        simp only [Option.some.injEq, Prod.mk.injEq] at h
        obtain ⟨h1, h2⟩ := h
        subst h1; subst h2
        exact (validate_coordinates_iff _ _).mp hval
      · exact absurd h (by simp)

theorem manualAttempt_some (pair : String × String) (lat lon : ℚ)
    (h : LocationResolver.manualAttempt pair = some (lat, lon)) :
    pyParseFloat (pyStrip pair.1) = some lat ∧ pyParseFloat (pyStrip pair.2) = some lon ∧
      (-90 ≤ lat ∧ lat ≤ 90 ∧ -180 ≤ lon ∧ lon ≤ 180) := by
  rw [LocationResolver.manualAttempt] at h
  split at h
  · exact absurd h (by simp)
  · split at h
    · rename_i la lo hla hlo
      split at h
      · rename_i hval
        simp only [Option.some.injEq, Prod.mk.injEq] at h
        obtain ⟨h1, h2⟩ := h
        subst h1; subst h2
        exact ⟨hla, hlo, (validate_coordinates_iff _ _).mp hval⟩
      · exact absurd h (by simp)
    · exact absurd h (by simp)

theorem manualLoop_some (inp : Nat → String × String) :
    ∀ (l : List Nat) (c : ℚ × ℚ), LocationResolver.manualLoop inp l = some c →
      ∃ i, LocationResolver.manualAttempt (inp i) = some c := by
  intro l
  induction l with
  | nil => intro c h; simp [LocationResolver.manualLoop] at h
  | cons i rest ih =>
    intro c h
    rw [LocationResolver.manualLoop] at h
    split at h
    · rename_i c0 hc0
      simp only [Option.some.injEq] at h
      subst h
      exact ⟨i, hc0⟩
    · exact ih c h

theorem queryCascade_some (p : LocationResolver.GeoProvider) :
    ∀ (qs : List String) (c : ℚ × ℚ), (LocationResolver.queryCascade p qs).1 = some c →
      ∃ q, LocationResolver._query_nominatim p q = some c := by
  intro qs
  induction qs with
  | nil => intro c h; simp [LocationResolver.queryCascade] at h
  | cons q rest ih =>
    intro c h
    rw [LocationResolver.queryCascade] at h
    split at h
    · rename_i c0 hc0
      simp only [Option.some.injEq] at h
      subst h
      exact ⟨q, hc0⟩
    · exact ih c h

theorem queryCascade_trace_le (p : LocationResolver.GeoProvider) :
    ∀ qs : List String, (LocationResolver.queryCascade p qs).2 <+: qs := by
  intro qs
  induction qs with
  | nil => simp [LocationResolver.queryCascade]
  | cons q rest ih =>
    rw [LocationResolver.queryCascade]
    split
    · exact ⟨rest, rfl⟩
    · obtain ⟨t, ht⟩ := ih
      refine ⟨t, ?_⟩
      show q :: (LocationResolver.queryCascade p rest).2 ++ t = q :: rest
      rw [List.cons_append, ht]

/-- Claim C6: the resolver issues at most 3 provider queries, in the fixed
specificity order "district, state, country", "district, country",
"state, country"; it returns the first coordinate that validates, issuing
no further queries, and invokes the manual-entry fallback only after all
three queries have failed. -/
theorem c6_cascade_order_and_short_circuit
    (p : LocationResolver.GeoProvider) (inp : Nat → String × String)
    (district state country : String) :
    (LocationResolver.get_coordinates p inp district state country).2 <+:
        LocationResolver.search_queries district state country ∧
    (∀ c, LocationResolver._query_nominatim p (district ++ ", " ++ state ++ ", " ++ country) = some c →
      LocationResolver.get_coordinates p inp district state country =
        (some c, [district ++ ", " ++ state ++ ", " ++ country])) ∧
    (∀ c, LocationResolver._query_nominatim p (district ++ ", " ++ state ++ ", " ++ country) = none →
      LocationResolver._query_nominatim p (district ++ ", " ++ country) = some c →
      LocationResolver.get_coordinates p inp district state country =
        (some c, [district ++ ", " ++ state ++ ", " ++ country, district ++ ", " ++ country])) ∧
    (∀ c, LocationResolver._query_nominatim p (district ++ ", " ++ state ++ ", " ++ country) = none →
      LocationResolver._query_nominatim p (district ++ ", " ++ country) = none →
      LocationResolver._query_nominatim p (state ++ ", " ++ country) = some c →
      LocationResolver.get_coordinates p inp district state country =
        (some c, LocationResolver.search_queries district state country)) ∧
    (LocationResolver._query_nominatim p (district ++ ", " ++ state ++ ", " ++ country) = none →
      LocationResolver._query_nominatim p (district ++ ", " ++ country) = none →
      LocationResolver._query_nominatim p (state ++ ", " ++ country) = none →
      LocationResolver.get_coordinates p inp district state country =
        (LocationResolver._get_manual_coordinates inp,
         LocationResolver.search_queries district state country)) := by
  refine ⟨?_, ?_, ?_, ?_, ?_⟩
  · rw [LocationResolver.get_coordinates]
    have h := queryCascade_trace_le p (LocationResolver.search_queries district state country)
    split
    · exact h
    · exact h
  · intro c h1
    rw [LocationResolver.get_coordinates, LocationResolver.search_queries]
    simp only [LocationResolver.queryCascade, h1]
  · intro c h1 h2
    simp [LocationResolver.get_coordinates, LocationResolver.search_queries,
          LocationResolver.queryCascade, h1, h2]
  · intro c h1 h2 h3
    simp [LocationResolver.get_coordinates, LocationResolver.search_queries,
          LocationResolver.queryCascade, h1, h2, h3]
  · intro h1 h2 h3
    simp [LocationResolver.get_coordinates, LocationResolver.search_queries,
          LocationResolver.queryCascade, h1, h2, h3]

/-- Claim C7: the shared range check accepts exactly latitudes in
`[-90, 90]` and longitudes in `[-180, 180]`; both the provider path and the
manual path return only coordinates passing it; manual entry makes at most
3 attempts, accepts only parseable in-range decimal inputs, returns the
first valid pair and yields `None` when the budget is exhausted; hence
every coordinate the resolver returns lies within the valid ranges. -/
theorem c7_all_returned_coordinates_in_range :
    (∀ latitude longitude : ℚ,
      LocationResolver._validate_coordinates latitude longitude = true ↔
        (-90 ≤ latitude ∧ latitude ≤ 90 ∧ -180 ≤ longitude ∧ longitude ≤ 180)) ∧
    (∀ (p : LocationResolver.GeoProvider) (q : String) (lat lon : ℚ),
      LocationResolver._query_nominatim p q = some (lat, lon) →
      -90 ≤ lat ∧ lat ≤ 90 ∧ -180 ≤ lon ∧ lon ≤ 180) ∧
    (∀ (pair : String × String) (lat lon : ℚ),
      LocationResolver.manualAttempt pair = some (lat, lon) →
      pyParseFloat (pyStrip pair.1) = some lat ∧ pyParseFloat (pyStrip pair.2) = some lon ∧
        (-90 ≤ lat ∧ lat ≤ 90 ∧ -180 ≤ lon ∧ lon ≤ 180)) ∧
    (∀ (inp : Nat → String × String) (c : ℚ × ℚ),
      LocationResolver.manualAttempt (inp 0) = some c →
      LocationResolver._get_manual_coordinates inp = some c) ∧
    (∀ (inp : Nat → String × String) (c : ℚ × ℚ),
      LocationResolver.manualAttempt (inp 0) = none →
      LocationResolver.manualAttempt (inp 1) = some c →
      LocationResolver._get_manual_coordinates inp = some c) ∧
    (∀ (inp : Nat → String × String) (c : ℚ × ℚ),
      LocationResolver.manualAttempt (inp 0) = none →
      LocationResolver.manualAttempt (inp 1) = none →
      LocationResolver.manualAttempt (inp 2) = some c →
      LocationResolver._get_manual_coordinates inp = some c) ∧
    (∀ inp : Nat → String × String,
      LocationResolver.manualAttempt (inp 0) = none →
      LocationResolver.manualAttempt (inp 1) = none →
      LocationResolver.manualAttempt (inp 2) = none →
      LocationResolver._get_manual_coordinates inp = none) ∧
    (∀ (p : LocationResolver.GeoProvider) (inp : Nat → String × String)
        (district state country : String) (lat lon : ℚ),
      (LocationResolver.get_coordinates p inp district state country).1 = some (lat, lon) →
      -90 ≤ lat ∧ lat ≤ 90 ∧ -180 ≤ lon ∧ lon ≤ 180) := by
  refine ⟨validate_coordinates_iff, query_nominatim_some, manualAttempt_some, ?_, ?_, ?_, ?_, ?_⟩
  · intro inp c h0
    simp [LocationResolver._get_manual_coordinates, LocationResolver.manualLoop, h0]
  · intro inp c h0 h1
    simp [LocationResolver._get_manual_coordinates, LocationResolver.manualLoop, h0, h1]
  · intro inp c h0 h1 h2
    simp [LocationResolver._get_manual_coordinates, LocationResolver.manualLoop, h0, h1, h2]
  · intro inp h0 h1 h2
    simp [LocationResolver._get_manual_coordinates, LocationResolver.manualLoop, h0, h1, h2]
  · intro p inp district state country lat lon h
    rw [LocationResolver.get_coordinates] at h
    split at h
    · rename_i c0 hc0
      simp only at h
      rw [h] at hc0
      obtain ⟨q, hq⟩ := queryCascade_some p _ _ hc0
      exact query_nominatim_some p q lat lon hq
    · simp only at h
      obtain ⟨i, hi⟩ := manualLoop_some inp _ _ h
      exact (manualAttempt_some (inp i) lat lon hi).2.2

/-! ### Top-level claims C3, C4, C10 -/

/-- Claim C3: the top-level call always terminates in a `CalcResult`
(success or failure dictionary, never a raised exception): every error
raised inside the `try` body is mapped to a failure dictionary by the two
handlers; a validation failure produces its failure result with an empty
ephemeris-call trace, and so does a location-resolution failure — both
short-circuit before any ephemeris work begins. -/
theorem c3_total_and_short_circuit :
    (∀ eph geo inp ystr mstr dstr hstr mistr d s c n,
      (∃ ps loc co, calculate_planetary_positions eph geo inp ystr mstr dstr hstr mistr d s c n =
        .success ps loc co) ∨
      (∃ m, calculate_planetary_positions eph geo inp ystr mstr dstr hstr mistr d s c n =
        .failure m)) ∧
    (∀ eph geo inp ystr mstr dstr hstr mistr d s c n m tr,
      calculate_planetary_positions_inner eph geo inp ystr mstr dstr hstr mistr d s c n =
        (.error (.valueError m), tr) →
      calculate_planetary_positions_traced eph geo inp ystr mstr dstr hstr mistr d s c n =
        (.failure ("Invalid birth data: " ++ m), tr)) ∧
    (∀ eph geo inp ystr mstr dstr hstr mistr d s c n m tr,
      calculate_planetary_positions_inner eph geo inp ystr mstr dstr hstr mistr d s c n =
        (.error (.otherError m), tr) →
      calculate_planetary_positions_traced eph geo inp ystr mstr dstr hstr mistr d s c n =
        (.failure ("Calculation failed: " ++ m), tr)) ∧
    (∀ eph geo inp ystr mstr dstr hstr mistr d s c n m,
      _validate_birth_data ystr mstr dstr hstr mistr = .error (.valueError m) →
      calculate_planetary_positions_traced eph geo inp ystr mstr dstr hstr mistr d s c n =
        (.failure ("Invalid birth data: " ++ m), [])) ∧
    (∀ eph geo inp ystr mstr dstr hstr mistr d s c n bdval,
      _validate_birth_data ystr mstr dstr hstr mistr = .ok bdval →
      (LocationResolver.get_coordinates geo inp d s c).1 = none →
      calculate_planetary_positions_traced eph geo inp ystr mstr dstr hstr mistr d s c n =
        (.failure ("Could not resolve location: " ++ d ++ ", " ++ s ++ ", " ++ c), [])) := by
  refine ⟨?_, ?_, ?_, ?_, ?_⟩
  · intro eph geo inp ystr mstr dstr hstr mistr d s c n
    cases htop : calculate_planetary_positions eph geo inp ystr mstr dstr hstr mistr d s c n with
    | success ps loc co => exact Or.inl ⟨ps, loc, co, rfl⟩
    | failure m => exact Or.inr ⟨m, rfl⟩
  · intro eph geo inp ystr mstr dstr hstr mistr d s c n m tr h
    rw [calculate_planetary_positions_traced, h]
  · intro eph geo inp ystr mstr dstr hstr mistr d s c n m tr h
    rw [calculate_planetary_positions_traced, h]
  · intro eph geo inp ystr mstr dstr hstr mistr d s c n m hval
    have hinner : calculate_planetary_positions_inner eph geo inp ystr mstr dstr hstr mistr d s c n =
        (.error (.valueError m), []) := by
      rw [calculate_planetary_positions_inner, hval]
    rw [calculate_planetary_positions_traced, hinner]
  · intro eph geo inp ystr mstr dstr hstr mistr d s c n bdval hval hco
    have hinner : calculate_planetary_positions_inner eph geo inp ystr mstr dstr hstr mistr d s c n =
        (.ok (.failure ("Could not resolve location: " ++ d ++ ", " ++ s ++ ", " ++ c)), []) := by
      rw [calculate_planetary_positions_inner, hval]
      simp only [hco]
    rw [calculate_planetary_positions_traced, hinner]

/-- Claim C4: an ephemeris-provider raise (a non-`ValueError`, surfaced by
the engine as an `otherError`) on any body or on the ascendant is fatal for
the whole request: the top level returns the failure dictionary whose
message carries the "Calculation failed: " prefix — the failure shape
carries no positions.  A raise on the first body query and a raise on the
ascendant query each produce such an engine error. -/
theorem c4_provider_failure_is_fatal :
    (∀ eph geo inp ystr mstr dstr hstr mistr d s c n bdval lat lon m tr,
      _validate_birth_data ystr mstr dstr hstr mistr = .ok bdval →
      (LocationResolver.get_coordinates geo inp d s c).1 = some (lat, lon) →
      VedicCalculatorEngine.calculate_positions eph n bdval.year bdval.month bdval.day
        bdval.hour bdval.minute lat lon = (.error (.otherError m), tr) →
      calculate_planetary_positions_traced eph geo inp ystr mstr dstr hstr mistr d s c n =
        (.failure ("Calculation failed: " ++ m), tr)) ∧
    (∀ (eph : Ephemeris) (jd : ℚ) (m : String), eph.swe_calc jd 0 = .error m →
      (VedicCalculatorEngine._calculate_planetary_positions eph jd).1 = .error (.otherError m)) ∧
    (∀ (eph : Ephemeris) (jd lat lon : ℚ) (m : String), eph.swe_houses_ex jd lat lon = .error m →
      VedicCalculatorEngine._calculate_ascendant eph jd lat lon = .error (.otherError m)) := by
  refine ⟨?_, ?_, ?_⟩
  · intro eph geo inp ystr mstr dstr hstr mistr d s c n bdval lat lon m tr hval hco heng
    have hinner : calculate_planetary_positions_inner eph geo inp ystr mstr dstr hstr mistr d s c n =
        (.error (.otherError m), tr) := by
      rw [calculate_planetary_positions_inner, hval]
      simp only [hco, heng]
    rw [calculate_planetary_positions_traced, hinner]
  · intro eph jd m h
    rw [VedicCalculatorEngine._calculate_planetary_positions, VedicCalculatorEngine.PLANETS,
        VedicCalculatorEngine.planetLoop, if_neg (by decide : ¬ ("Sun" : String) = "Rahu"), h]
  · intro eph jd lat lon m h
    rw [VedicCalculatorEngine._calculate_ascendant, h]

/-- Claim C10: five fields that pass validation but form a
calendar-impossible date (day exceeding the month's length) make the
`datetime` construction raise `ValueError("day is out of range for
month")` inside the engine, which the top level reports under the
"Invalid birth data: " prefix and with no ephemeris work; in general any
`ValueError` raised by the `try` body after validation is reported under
the "Invalid birth data: " prefix, not "Calculation failed: ". -/
theorem c10_impossible_date_reported_as_invalid_birth_data :
    (∀ eph geo inp ystr mstr dstr hstr mistr d s c n y mo dd h mi lat lon,
      pyParseInt ystr = some y → pyParseInt mstr = some mo → pyParseInt dstr = some dd →
      pyParseInt hstr = some h → pyParseInt mistr = some mi →
      (1900 ≤ y ∧ y ≤ 2100) → (1 ≤ mo ∧ mo ≤ 12) → (1 ≤ dd ∧ dd ≤ 31) →
      (0 ≤ h ∧ h ≤ 23) → (0 ≤ mi ∧ mi ≤ 59) →
      days_in_month y mo < dd →
      (LocationResolver.get_coordinates geo inp d s c).1 = some (lat, lon) →
      calculate_planetary_positions_traced eph geo inp ystr mstr dstr hstr mistr d s c n =
        (.failure "Invalid birth data: day is out of range for month", [])) ∧
    (∀ eph geo inp ystr mstr dstr hstr mistr d s c n m tr,
      calculate_planetary_positions_inner eph geo inp ystr mstr dstr hstr mistr d s c n =
        (.error (.valueError m), tr) →
      calculate_planetary_positions_traced eph geo inp ystr mstr dstr hstr mistr d s c n =
        (.failure ("Invalid birth data: " ++ m), tr)) := by
  constructor
  · intro eph geo inp ystr mstr dstr hstr mistr d s c n y mo dd h mi lat lon
      hy hmo hd hh hmi hry hrmo hrd hrh hrmi hdim hco
    have hval : _validate_birth_data ystr mstr dstr hstr mistr = .ok ⟨y, mo, dd, h, mi⟩ := by
      rw [validate_birth_data_parsed ystr mstr dstr hstr mistr y mo dd h mi hy hmo hd hh hmi,
          if_neg (not_not_intro hry), if_neg (not_not_intro hrmo), if_neg (not_not_intro hrd),
          if_neg (not_not_intro hrh), if_neg (not_not_intro hrmi)]
    have hdt : mkDatetime y mo dd h mi =
        .error (.valueError "day is out of range for month") := by
      rw [mkDatetime, if_neg (by omega : ¬ (y < 1 ∨ 9999 < y)),
          if_neg (by omega : ¬ (mo < 1 ∨ 12 < mo)), if_pos (Or.inr hdim)]
    have hjd : VedicCalculatorEngine._calculate_julian_day eph y mo dd h mi =
        .error (.valueError "day is out of range for month") := by
      rw [VedicCalculatorEngine._calculate_julian_day, hdt]
    have heng : VedicCalculatorEngine.calculate_positions eph n y mo dd h mi lat lon =
        (.error (.valueError "day is out of range for month"), []) := by
      rw [VedicCalculatorEngine.calculate_positions, hjd]
    have hinner : calculate_planetary_positions_inner eph geo inp ystr mstr dstr hstr mistr d s c n =
        (.error (.valueError "day is out of range for month"), []) := by
      rw [calculate_planetary_positions_inner, hval]
      simp only [hco, heng]
    rw [calculate_planetary_positions_traced, hinner]
    rfl
  · intro eph geo inp ystr mstr dstr hstr mistr d s c n m tr h
    rw [calculate_planetary_positions_traced, h]

/-! ### Concrete oracles and remaining witnesses -/

/-- A geocoding oracle answering only the "district, country" query form. -/
def geoSecondQuery : LocationResolver.GeoProvider :=
  ⟨fun q => if q = "D, C" then .results [(10, 20)] else .results []⟩

/-- A geocoding oracle whose first answer is always a fixed valid result. -/
def geoFirstQuery : LocationResolver.GeoProvider :=
  ⟨fun _ => .results [(19, 72)]⟩

/-- An interactive-input oracle that always enters empty lines. -/
def inpEmpty : Nat → String × String := fun _ => ("", "")

/-- An ephemeris oracle that raises on every query. -/
def ephFail : Ephemeris :=
  ⟨fun _ _ => .error "ephemeris failure", fun _ _ _ => .error "ephemeris failure",
   fun _ _ _ _ => 0⟩

theorem c3_witness :
    (_validate_birth_data "abc" "5" "15" "14" "30" =
      .error (.valueError "All birth data must be valid numbers")) ∧
    calculate_planetary_positions_traced ephConst geoFirstQuery inpEmpty
        "abc" "5" "15" "14" "30" "Mumbai" "Maharashtra" "India" "A" =
      (.failure "Invalid birth data: All birth data must be valid numbers", []) :=
  ⟨rfl,
   c3_total_and_short_circuit.2.2.2.1 ephConst geoFirstQuery inpEmpty
     "abc" "5" "15" "14" "30" "Mumbai" "Maharashtra" "India" "A"
     "All birth data must be valid numbers" rfl⟩

theorem c4_witness :
    (_validate_birth_data "1990" "5" "15" "14" "30" = .ok ⟨1990, 5, 15, 14, 30⟩) ∧
    ((LocationResolver.get_coordinates geoFirstQuery inpEmpty "Mumbai" "Maharashtra" "India").1 =
      some (19, 72)) ∧
    (VedicCalculatorEngine.calculate_positions ephFail "A" 1990 5 15 14 30 19 72 =
      (.error (.otherError "ephemeris failure"), [EphCall.body 0])) ∧
    calculate_planetary_positions_traced ephFail geoFirstQuery inpEmpty
        "1990" "5" "15" "14" "30" "Mumbai" "Maharashtra" "India" "A" =
      (.failure "Calculation failed: ephemeris failure", [EphCall.body 0]) :=
  ⟨rfl, rfl, rfl,
   c4_provider_failure_is_fatal.1 ephFail geoFirstQuery inpEmpty
     "1990" "5" "15" "14" "30" "Mumbai" "Maharashtra" "India" "A"
     ⟨1990, 5, 15, 14, 30⟩ 19 72 "ephemeris failure" [EphCall.body 0] rfl rfl rfl⟩

theorem c6_witness :
    (LocationResolver._query_nominatim geoSecondQuery "D, S, C" = none) ∧
    (LocationResolver._query_nominatim geoSecondQuery "D, C" = some (10, 20)) ∧
    LocationResolver.get_coordinates geoSecondQuery inpEmpty "D" "S" "C" =
      (some (10, 20), ["D, S, C", "D, C"]) :=
  ⟨rfl, rfl,
   (c6_cascade_order_and_short_circuit geoSecondQuery inpEmpty "D" "S" "C").2.2.1
     (10, 20) rfl rfl⟩

theorem c7_witness :
    ((LocationResolver.get_coordinates geoFirstQuery inpEmpty
        "Mumbai" "Maharashtra" "India").1 = some (19, 72)) ∧
    ((-90 : ℚ) ≤ 19 ∧ (19 : ℚ) ≤ 90 ∧ (-180 : ℚ) ≤ 72 ∧ (72 : ℚ) ≤ 180) :=
  ⟨rfl,
   c7_all_returned_coordinates_in_range.2.2.2.2.2.2.2 geoFirstQuery inpEmpty
     "Mumbai" "Maharashtra" "India" 19 72 rfl⟩

theorem c10_witness :
    (days_in_month 1990 2 < 30) ∧
    ((LocationResolver.get_coordinates geoFirstQuery inpEmpty
        "Mumbai" "Maharashtra" "India").1 = some (19, 72)) ∧
    calculate_planetary_positions_traced ephConst geoFirstQuery inpEmpty
        "1990" "2" "30" "14" "30" "Mumbai" "Maharashtra" "India" "A" =
      (.failure "Invalid birth data: day is out of range for month", []) :=
  ⟨by decide, rfl,
   c10_impossible_date_reported_as_invalid_birth_data.1 ephConst geoFirstQuery inpEmpty
     "1990" "2" "30" "14" "30" "Mumbai" "Maharashtra" "India" "A"
     1990 2 30 14 30 19 72 rfl rfl rfl rfl rfl
     (by decide) (by decide) (by decide) (by decide) (by decide) (by decide) rfl⟩
